import Mathlib

/-!
Verification of the search-query compiler of
`Project-Gutenberg-Full-Text-Search` (src/search/full_text_search.py and
src/FullTextSearchRewrite.py), as a shallow embedding in Lean 4.

Python dictionaries that hold bound statement parameters are modelled as
association lists with `dict.update` semantics (`dictInsert` replaces the
value of an existing key in place, otherwise appends).  Python `int` is
modelled as `Int` (`//` is `Int.fdiv`, floor division), Python strings as
`String`.  The enumerations come from the `constants` module, whose members
are defined in src/FullTextSearch.py (Encoding, SearchType, SearchField,
OrderBy, SortDirection, Crosswalk).
-/

namespace GutenFTS

/-- SearchType from src/FullTextSearch.py: search algorithm types. -/
inductive SearchType
  | FTS
  | FUZZY
  | CONTAINS
deriving DecidableEq, Repr

/-- SearchField from src/FullTextSearch.py: searchable fields. -/
inductive SearchField
  | BOOK
  | TITLE
  | AUTHOR
  | SUBJECT
  | BOOKSHELF
  | SUBTITLE
  | ATTRIBUTE
deriving DecidableEq, Repr

/-- OrderBy from src/FullTextSearch.py: sort options. -/
inductive OrderBy
  | RELEVANCE
  | DOWNLOADS
  | TITLE
  | AUTHOR
  | RELEASE_DATE
  | RANDOM
deriving DecidableEq, Repr

/-- SortDirection from src/FullTextSearch.py: sort direction. -/
inductive SortDirection
  | ASC
  | DESC
deriving DecidableEq, Repr

/-- The `.value` of a SortDirection member. -/
def SortDirection.value : SortDirection → String
  | .ASC => "asc"
  | .DESC => "desc"

/-- Crosswalk from src/FullTextSearch.py: output format transformers. -/
inductive Crosswalk
  | FULL
  | PG
  | OPDS
  | CUSTOM
  | MINI
deriving DecidableEq, Repr

/-- FileType members are not needed individually; only `.value` is used
by `SearchQuery.file_type`. -/
structure FileType where
  value : String
deriving DecidableEq, Repr

/-- Encoding from src/FullTextSearch.py; only `.value` is used. -/
structure Encoding where
  value : String
deriving DecidableEq, Repr

/-- Language enum member: only `.code` is used by `SearchQuery.lang`. -/
structure Language where
  code : String
deriving DecidableEq, Repr

/-- A value bound to a statement parameter (Python ints, strings and lists
of ints are the only values the directives bind). -/
inductive Value
  | int (n : Int)
  | str (s : String)
  | intList (ns : List Int)
deriving DecidableEq, Repr

/-- A parameter dictionary: association list in insertion order. -/
abbrev Params := List (String × Value)

/-- One `d[k] = v` assignment on a Python dict: an existing key keeps its
position and gets the new value, a new key is appended. -/
def dictInsert (m : Params) (kv : String × Value) : Params :=
  if m.any (fun p => p.1 == kv.1) then
    m.map (fun p => if p.1 == kv.1 then (p.1, kv.2) else p)
  else m ++ [kv]

/-- Python `m.update(p)`: assign every pair of `p` into `m`, in order. -/
def dictUpdate (m : Params) (p : Params) : Params :=
  p.foldl dictInsert m

/-- Python `m[k]` / `m.get(k)`: the value at a key. -/
def dictGet (m : Params) (k : String) : Option Value :=
  (m.find? (fun p => p.1 == k)).map (·.2)

/-- Python `" AND ".join(l)`. -/
def joinAnd : List String → String
  | [] => ""
  | [s] => s
  | s :: rest => s ++ " AND " ++ joinAnd rest

/-- Python `s.strip()`: drop leading and trailing whitespace
(`Char.isWhitespace` stands for Python's whitespace class). -/
def pyStrip (s : String) : String :=
  String.mk (((s.data.dropWhile Char.isWhitespace).reverse.dropWhile Char.isWhitespace).reverse)

/-- Python `s.lower()` (ASCII case folding suffices for the inputs the
source lower-cases: language codes and the words `or`/`and`). -/
def pyLower (s : String) : String :=
  String.mk (s.data.map Char.toLower)

/-- Python `s.upper()` (applied to `"asc"`/`"desc"` only). -/
def pyUpper (s : String) : String :=
  String.mk (s.data.map Char.toUpper)

/-- One pass of Python `s.replace(old, new)` over a character list, with
explicit fuel (the list's length) so that the kernel can evaluate it; a
non-empty `pat` is consumed whole at each match. -/
def pyReplaceAux (pat rep : List Char) : Nat → List Char → List Char
  | _, [] => []
  | 0, l => l
  | fuel + 1, c :: rest =>
    if pat ≠ [] ∧ (c :: rest).take pat.length = pat then
      rep ++ pyReplaceAux pat rep fuel ((c :: rest).drop pat.length)
    else c :: pyReplaceAux pat rep fuel rest

/-- Python `s.replace(old, new)` (the source only uses
`.replace("%", "")`). -/
def pyReplace (s old new : String) : String :=
  String.mk (pyReplaceAux old.data new.data s.data.length s.data)

/-- Python truthiness of an `str | None`: `None` and `""` are falsy. -/
def truthy : Option String → Bool
  | none => false
  | some s => s ≠ ""

/-- Whether `pat` occurs as a contiguous sublist of `l`. -/
def containsSub : List Char → List Char → Bool
  | [], pat => pat = ([] : List Char)
  | c :: rest, pat => (c :: rest).take pat.length = pat || containsSub rest pat

/-- Python `pat in s` for strings: substring containment. -/
def containsSubstr (s pat : String) : Bool :=
  containsSub s.data pat.data

/-- The SearchQuery dataclass of src/search/full_text_search.py, lines
40-48.  `_search` entries are `(sql, params, rank column)` triples,
`_filter` entries are `(sql, params)` pairs. -/
structure SearchQuery where
  _search : List (String × Params × String) := []
  _filter : List (String × Params) := []
  _order : OrderBy := OrderBy.RELEVANCE
  _sort_dir : Option SortDirection := none
  _page : Int := 1
  _page_size : Int := 28
  _crosswalk : Crosswalk := Crosswalk.FULL
deriving DecidableEq, Repr

/-- `SearchQuery()`: the dataclass defaults. -/
def SearchQuery.new : SearchQuery := {}

/-- `_FIELD_COLS` of src/search/full_text_search.py, lines 381-389:
per-field `(fts column, text column)`. -/
def _FIELD_COLS : SearchField → String × String
  | .BOOK => ("tsvec", "book_text")
  | .TITLE => ("title_tsvec", "title")
  | .SUBTITLE => ("subtitle_tsvec", "subtitle")
  | .AUTHOR => ("author_tsvec", "all_authors")
  | .SUBJECT => ("subject_tsvec", "all_subjects")
  | .BOOKSHELF => ("bookshelf_tsvec", "bookshelf_text")
  | .ATTRIBUTE => ("attribute_tsvec", "attribute_text")

/-- `_TRIGRAM_FIELDS` of src/search/full_text_search.py, lines 392-399:
the fields with a trigram index (every field except ATTRIBUTE). -/
def _TRIGRAM_FIELDS : SearchField → Bool
  | .BOOK => true
  | .TITLE => true
  | .SUBTITLE => true
  | .AUTHOR => true
  | .SUBJECT => true
  | .BOOKSHELF => true
  | .ATTRIBUTE => false

/-- `_ORDER_COLUMNS` of src/search/full_text_search.py, lines 402-408:
`(column, default direction, NULLS placement)` per OrderBy key; absent
keys (RELEVANCE) give `none`. -/
def _ORDER_COLUMNS : OrderBy → Option (String × Option SortDirection × Option String)
  | .DOWNLOADS => some ("downloads", some .DESC, none)
  | .TITLE => some ("title", some .ASC, none)
  | .AUTHOR => some ("all_authors", some .ASC, some "LAST")
  | .RELEASE_DATE => some ("release_date", some .DESC, some "LAST")
  | .RANDOM => some ("RANDOM()", none, none)
  | .RELEVANCE => none

/-- `_SELECT` of src/search/full_text_search.py, line 411. -/
def _SELECT : String := "book_id, title, all_authors, downloads, dc, is_audio"

/-- `_SUBQUERY` of src/search/full_text_search.py, lines 414-420 (the
column list the nested sub-select projects; it contains every column any
filter condition references). -/
def _SUBQUERY : String :=
  "book_id, title, all_authors, all_subjects, downloads, release_date, dc,\n    copyrighted, lang_codes, is_audio,\n    max_author_birthyear, min_author_birthyear,\n    max_author_deathyear, min_author_deathyear,\n    locc_codes,\n    tsvec, title_tsvec, subtitle_tsvec, author_tsvec, subject_tsvec, bookshelf_tsvec, attribute_tsvec,\n    book_text, bookshelf_text, attribute_text, subtitle"

/-- Scanner used to model `re.findall` with a quoted-phrase pattern: the
characters before the first `"` (none when the list has no `"`), and the
rest after it. -/
def splitAtQuote : List Char → Option (List Char × List Char)
  | [] => none
  | c :: rest =>
    if c = '"' then some ([], rest)
    else (splitAtQuote rest).map (fun p => (c :: p.1, p.2))

theorem splitAtQuote_length {l a b : List Char} (h : splitAtQuote l = some (a, b)) :
    b.length < l.length := by
  induction l generalizing a b with
  | nil => simp [splitAtQuote] at h
  | cons c rest ih =>
    by_cases hc : c = '"'
    · simp [splitAtQuote, hc] at h
      simp [← h.2]
    · simp only [splitAtQuote, if_neg hc, Option.map_eq_some'] at h
      obtain ⟨⟨a', b'⟩, hs, he⟩ := h
      cases he
      exact Nat.lt_succ_of_lt (ih hs)

/-- Model of `re.findall(r'"([^"]+)"', txt)` together with
`re.sub(r'"[^"]*"', "", txt)` (lines 130-131): the non-empty quoted
phrases in order, and the text with every quoted span removed (an
unpaired quote stays in the text, exactly as the regex leaves it). -/
def extractQuoted : List Char → List (List Char) × List Char
  | [] => ([], [])
  | c :: rest =>
    if c = '"' then
      match h : splitAtQuote rest with
      | some (content, rest2) =>
        have : rest2.length < rest.length + 1 :=
          Nat.lt_succ_of_lt (splitAtQuote_length h)
        let (ps, out) := extractQuoted rest2
        (if content = [] then ps else content :: ps, out)
      | none =>
        let (ps, out) := extractQuoted rest
        (ps, c :: out)
    else
      let (ps, out) := extractQuoted rest
      (ps, c :: out)
termination_by l => l.length

/-- Model of `re.findall(r"-(\S+)", txt)` together with
`re.sub(r"-\S+", "", txt)` (lines 134-135): the negated tokens in order,
and the text with each `-token` span removed.  (`Char.isWhitespace`
stands for the regex class `\s`.) -/
def extractNegations : List Char → List (List Char) × List Char
  | [] => ([], [])
  | c :: rest =>
    if c = '-' then
      let run := rest.takeWhile (fun d => !d.isWhitespace)
      if hrun : run = [] then
        let (ns, out) := extractNegations rest
        (ns, c :: out)
      else
        have : (rest.drop run.length).length < rest.length + 1 := by
          simp only [List.length_drop]
          omega
        let (ns, out) := extractNegations (rest.drop run.length)
        (run :: ns, out)
    else
      let (ns, out) := extractNegations rest
      (ns, c :: out)
termination_by l => l.length

/-- Python `txt.split()`: split on whitespace runs, dropping empties
(`cur` holds the current word's characters in reverse). -/
def splitWordsAux (cur : List Char) : List Char → List String
  | [] => if cur = [] then [] else [String.mk cur.reverse]
  | c :: rest =>
    if c.isWhitespace then
      if cur = [] then splitWordsAux [] rest
      else String.mk cur.reverse :: splitWordsAux [] rest
    else splitWordsAux (c :: cur) rest

/-- Python `txt.split()`. -/
def splitWords (l : List Char) : List String :=
  splitWordsAux [] l

/-- `SearchQuery._parse_fuzzy_query` of src/search/full_text_search.py,
lines 118-175: parse a fuzzy-search string into one conjoined condition
and its parameters (quoted phrases become ILIKE matches, plain words
similarity matches, `-token`s negated ILIKE matches; `"q"` always keeps
the original text for ranking). -/
def SearchQuery._parse_fuzzy_query (txt : String) (text_col : String) :
    String × Params :=
  let original_txt := txt
  let eq := extractQuoted txt.data
  let phrases := eq.1.map String.mk
  let en := extractNegations eq.2
  let negations := en.1.map String.mk
  let words := splitWords en.2
  let phrasesKept := (phrases.map pyStrip).filter (fun p => p ≠ "")
  let wordsKept := (words.map pyStrip).filter
    (fun w => w ≠ "" && pyLower w ≠ "or" && pyLower w ≠ "and")
  let negationsKept := (negations.map pyStrip).filter (fun p => p ≠ "")
  let nPh := phrasesKept.length
  let nW := wordsKept.length
  let phraseConds : List (String × (String × Value)) := phrasesKept.enum.map
    (fun p => (text_col ++ " ILIKE :phrase_" ++ toString p.1,
      ("phrase_" ++ toString p.1, Value.str ("%" ++ p.2 ++ "%"))))
  let wordConds : List (String × (String × Value)) := (List.enumFrom nPh wordsKept).map
    (fun p => (":word_" ++ toString p.1 ++ " <% " ++ text_col,
      ("word_" ++ toString p.1, Value.str p.2)))
  let negConds : List (String × (String × Value)) := (List.enumFrom (nPh + nW) negationsKept).map
    (fun p => ("NOT (" ++ text_col ++ " ILIKE :neg_" ++ toString p.1 ++ ")",
      ("neg_" ++ toString p.1, Value.str ("%" ++ p.2 ++ "%"))))
  let conds := phraseConds ++ wordConds ++ negConds
  if conds = [] then (":q <% " ++ text_col, [("q", Value.str original_txt)])
  else (joinAnd (conds.map (·.1)), ("q", Value.str original_txt) :: conds.map (·.2))

/-- `SearchQuery.search` of src/search/full_text_search.py, lines 76-116:
append one search condition.  A blank text is a no-op; a non-trigram
field (ATTRIBUTE) always takes the FTS branch. -/
def SearchQuery.search (q : SearchQuery) (txt : String)
    (field : SearchField := SearchField.BOOK)
    (search_type : SearchType := SearchType.FTS) : SearchQuery :=
  let txt := pyStrip txt
  if txt = "" then q
  else
    let fts_col := (_FIELD_COLS field).1
    let text_col := (_FIELD_COLS field).2
    let use_trigram := _TRIGRAM_FIELDS field
    if search_type = SearchType.FTS ∨ use_trigram = false then
      { q with _search := q._search ++
          [(fts_col ++ " @@ websearch_to_tsquery('english', :q)",
            [("q", Value.str txt)], fts_col)] }
    else if search_type = SearchType.FUZZY then
      let pc := SearchQuery._parse_fuzzy_query txt text_col
      if pc.1 ≠ "" then
        { q with _search := q._search ++ [(pc.1, pc.2, text_col)] }
      else q
    else
      { q with _search := q._search ++
          [(text_col ++ " ILIKE :q",
            [("q", Value.str ("%" ++ txt ++ "%"))], text_col)] }

/-- `SearchQuery.etext`, line 179. -/
def SearchQuery.etext (q : SearchQuery) (nr : Int) : SearchQuery :=
  { q with _filter := q._filter ++ [("book_id = :id", [("id", Value.int nr)])] }

/-- `SearchQuery.etexts`, line 183. -/
def SearchQuery.etexts (q : SearchQuery) (nrs : List Int) : SearchQuery :=
  { q with _filter := q._filter ++ [("book_id = ANY(:ids)", [("ids", Value.intList nrs)])] }

/-- `SearchQuery.downloads_gte`, line 187. -/
def SearchQuery.downloads_gte (q : SearchQuery) (n : Int) : SearchQuery :=
  { q with _filter := q._filter ++ [("downloads >= :dl", [("dl", Value.int n)])] }

/-- `SearchQuery.downloads_lte`, line 191. -/
def SearchQuery.downloads_lte (q : SearchQuery) (n : Int) : SearchQuery :=
  { q with _filter := q._filter ++ [("downloads <= :dl", [("dl", Value.int n)])] }

/-- `SearchQuery.public_domain`, line 195. -/
def SearchQuery.public_domain (q : SearchQuery) : SearchQuery :=
  { q with _filter := q._filter ++ [("copyrighted = 0", [])] }

/-- `SearchQuery.copyrighted`, line 199. -/
def SearchQuery.copyrighted (q : SearchQuery) : SearchQuery :=
  { q with _filter := q._filter ++ [("copyrighted = 1", [])] }

/-- `SearchQuery.lang`, lines 203-212: a Language member contributes its
`.code`, a plain string is lower-cased. -/
def SearchQuery.lang (q : SearchQuery) (code : Language ⊕ String) : SearchQuery :=
  let code_val := match code with
    | Sum.inl l => l.code
    | Sum.inr s => pyLower s
  { q with _filter := q._filter ++
      [("lang_codes @> ARRAY[CAST(:lang AS text)]", [("lang", Value.str code_val)])] }

/-- `SearchQuery.text_only`, line 214. -/
def SearchQuery.text_only (q : SearchQuery) : SearchQuery :=
  { q with _filter := q._filter ++ [("is_audio = false", [])] }

/-- `SearchQuery.audiobook`, line 218. -/
def SearchQuery.audiobook (q : SearchQuery) : SearchQuery :=
  { q with _filter := q._filter ++ [("is_audio = true", [])] }

/-- `SearchQuery.author_born_after`, line 222. -/
def SearchQuery.author_born_after (q : SearchQuery) (year : Int) : SearchQuery :=
  { q with _filter := q._filter ++ [("max_author_birthyear >= :y", [("y", Value.int year)])] }

/-- `SearchQuery.author_born_before`, line 226. -/
def SearchQuery.author_born_before (q : SearchQuery) (year : Int) : SearchQuery :=
  { q with _filter := q._filter ++ [("min_author_birthyear <= :y", [("y", Value.int year)])] }

/-- `SearchQuery.author_died_after`, line 230. -/
def SearchQuery.author_died_after (q : SearchQuery) (year : Int) : SearchQuery :=
  { q with _filter := q._filter ++ [("max_author_deathyear >= :y", [("y", Value.int year)])] }

/-- `SearchQuery.author_died_before`, line 234. -/
def SearchQuery.author_died_before (q : SearchQuery) (year : Int) : SearchQuery :=
  { q with _filter := q._filter ++ [("min_author_deathyear <= :y", [("y", Value.int year)])] }

/-- `SearchQuery.released_after`, line 238. -/
def SearchQuery.released_after (q : SearchQuery) (date : String) : SearchQuery :=
  { q with _filter := q._filter ++ [("release_date >= CAST(:d AS date)", [("d", Value.str date)])] }

/-- `SearchQuery.released_before`, line 242. -/
def SearchQuery.released_before (q : SearchQuery) (date : String) : SearchQuery :=
  { q with _filter := q._filter ++ [("release_date <= CAST(:d AS date)", [("d", Value.str date)])] }

/-- `SearchQuery.locc`, lines 246-253. -/
def SearchQuery.locc (q : SearchQuery) (code : String) : SearchQuery :=
  { q with _filter := q._filter ++
      [("EXISTS (SELECT 1 FROM mn_books_loccs mbl JOIN loccs lc ON lc.pk = mbl.fk_loccs WHERE mbl.fk_books = book_id AND lc.pk LIKE :locc_pattern)",
        [("locc_pattern", Value.str (code ++ "%"))])] }

/-- `SearchQuery.has_contributor`, lines 255-259 (the JSON literal
`[{"role":"<role>"}]` is written with `\x7b`/`\x7d` for its braces). -/
def SearchQuery.has_contributor (q : SearchQuery) (role : String) : SearchQuery :=
  { q with _filter := q._filter ++
      [("dc->'creators' @> CAST(:j AS jsonb)",
        [("j", Value.str ("[\x7b\"role\":\"" ++ role ++ "\"\x7d]"))])] }

/-- `SearchQuery.file_type`, lines 261-268. -/
def SearchQuery.file_type (q : SearchQuery) (ft : FileType) : SearchQuery :=
  { q with _filter := q._filter ++
      [("dc->'format' @> CAST(:ft AS jsonb)",
        [("ft", Value.str ("[\x7b\"mediatype\":\"" ++ ft.value ++ "\"\x7d]"))])] }

/-- `SearchQuery.author_id`, lines 270-274. -/
def SearchQuery.author_id (q : SearchQuery) (aid : Int) : SearchQuery :=
  { q with _filter := q._filter ++
      [("dc->'creators' @> CAST(:aid AS jsonb)",
        [("aid", Value.str ("[\x7b\"id\":" ++ toString aid ++ "\x7d]"))])] }

/-- `SearchQuery.subject_id`, lines 276-284. -/
def SearchQuery.subject_id (q : SearchQuery) (sid : Int) : SearchQuery :=
  { q with _filter := q._filter ++
      [("EXISTS (SELECT 1 FROM mn_books_subjects mbs WHERE mbs.fk_books = book_id AND mbs.fk_subjects = :sid)",
        [("sid", Value.int sid)])] }

/-- `SearchQuery.bookshelf_id`, lines 286-294. -/
def SearchQuery.bookshelf_id (q : SearchQuery) (bid : Int) : SearchQuery :=
  { q with _filter := q._filter ++
      [("EXISTS (SELECT 1 FROM mn_books_bookshelves mbb WHERE mbb.fk_books = book_id AND mbb.fk_bookshelves = :bid)",
        [("bid", Value.int bid)])] }

/-- `SearchQuery.encoding`, lines 296-303. -/
def SearchQuery.encoding (q : SearchQuery) (enc : Encoding) : SearchQuery :=
  { q with _filter := q._filter ++
      [("dc->'format' @> CAST(:enc AS jsonb)",
        [("enc", Value.str ("[\x7b\"encoding\":\"" ++ enc.value ++ "\"\x7d]"))])] }

/-- `SearchQuery.where`, lines 305-308 (`where` is a Lean keyword, hence
the trailing underscore). -/
def SearchQuery.where_ (q : SearchQuery) (sql : String) (params : Params) : SearchQuery :=
  { q with _filter := q._filter ++ [(sql, params)] }

/-- `SearchQuery.__getitem__`, lines 52-59: `q[3]` sets the page, clamped
to at least 1; `q[2, 50]` also sets the page size, clamped into [1, 100]. -/
def SearchQuery.__getitem__ (q : SearchQuery) (key : Int ⊕ Int × Int) : SearchQuery :=
  match key with
  | Sum.inr kv => { q with _page := max 1 kv.1, _page_size := max 1 (min 100 kv.2) }
  | Sum.inl k => { q with _page := max 1 k }

/-- `SearchQuery.crosswalk`, line 63. -/
def SearchQuery.crosswalk (q : SearchQuery) (cw : Crosswalk) : SearchQuery :=
  { q with _crosswalk := cw }

/-- `SearchQuery.order_by`, lines 67-72. -/
def SearchQuery.order_by (q : SearchQuery) (order : OrderBy)
    (direction : Option SortDirection := none) : SearchQuery :=
  { q with _order := order, _sort_dir := direction }

/-- `SearchQuery._params`, lines 312-318: one dict, updated with every
search condition's parameters and then every filter condition's, in
order (`dict.update`: a repeated name keeps only the latest value). -/
def SearchQuery._params (q : SearchQuery) : Params :=
  let params := q._search.foldl (fun acc s => dictUpdate acc s.2.1) []
  q._filter.foldl (fun acc f => dictUpdate acc f.2) params

/-- `SearchQuery._order_sql`, lines 320-339: the ORDER BY clause, and the
parameter dict it may have extended with `rank_q` (the Python code
mutates the dict in place).  `p["q"]` is total in the source because
every search condition binds `"q"`; an absent key is modelled as `""`. -/
def SearchQuery._order_sql (q : SearchQuery) (params : Params) : String × Params :=
  if q._order = OrderBy.RELEVANCE ∧ q._search ≠ [] then
    match q._search.getLast? with
    | some (sql, p, col) =>
      let qval := match dictGet p "q" with
        | some (Value.str s) => s
        | _ => ""
      let params := dictInsert params ("rank_q", Value.str (pyReplace qval "%" ""))
      if containsSubstr sql "<%" ∨ containsSubstr sql "ILIKE" then
        ("word_similarity(:rank_q, " ++ col ++ ") DESC, downloads DESC", params)
      else
        ("ts_rank_cd(" ++ col ++ ", websearch_to_tsquery('english', :rank_q)) DESC, downloads DESC", params)
    | none => ("downloads DESC", params)
  else if q._order = OrderBy.RANDOM then
    ("RANDOM()", params)
  else
    match _ORDER_COLUMNS q._order with
    | none => ("downloads DESC", params)
    | some (col, default_dir, nulls) =>
      let direction := q._sort_dir.orElse (fun _ => default_dir)
      let clause := col ++ " " ++ ((direction.map (fun d => pyUpper d.value)).getD "")
      let clause := match nulls with
        | some nl => clause ++ " NULLS " ++ nl
        | none => clause
      (clause, params)

/-- `SearchQuery.build`, lines 341-358: the fetch statement and its
parameters.  Four shapes: a nested sub-select when both search and
filter conditions are present, a single WHERE when only one family is,
no WHERE when neither is. -/
def SearchQuery.build (q : SearchQuery) : String × Params :=
  let params := q._params
  let op := q._order_sql params
  let order := op.1
  let params := op.2
  let limit := q._page_size
  let offset := (q._page - 1) * q._page_size
  let search_sql : Option String :=
    if q._search ≠ [] then some (joinAnd (q._search.map (·.1))) else none
  let filter_sql : Option String :=
    if q._filter ≠ [] then some (joinAnd (q._filter.map (·.1))) else none
  let tail := " ORDER BY " ++ order ++ " LIMIT " ++ toString limit ++ " OFFSET " ++ toString offset
  if truthy search_sql ∧ truthy filter_sql then
    ("SELECT " ++ _SELECT ++ " FROM (SELECT " ++ _SUBQUERY ++ " FROM mv_books_dc WHERE "
      ++ search_sql.getD "" ++ ") t WHERE " ++ filter_sql.getD "" ++ tail, params)
  else if truthy search_sql then
    ("SELECT " ++ _SELECT ++ " FROM mv_books_dc WHERE " ++ search_sql.getD "" ++ tail, params)
  else if truthy filter_sql then
    ("SELECT " ++ _SELECT ++ " FROM mv_books_dc WHERE " ++ filter_sql.getD "" ++ tail, params)
  else
    ("SELECT " ++ _SELECT ++ " FROM mv_books_dc" ++ tail, params)

/-- `SearchQuery.build_count`, lines 360-374: the count statement and its
parameters; the WHERE shapes mirror `build`, with no ORDER BY, LIMIT or
OFFSET. -/
def SearchQuery.build_count (q : SearchQuery) : String × Params :=
  let params := q._params
  let search_sql : Option String :=
    if q._search ≠ [] then some (joinAnd (q._search.map (·.1))) else none
  let filter_sql : Option String :=
    if q._filter ≠ [] then some (joinAnd (q._filter.map (·.1))) else none
  if truthy search_sql ∧ truthy filter_sql then
    ("SELECT COUNT(*) FROM (SELECT " ++ _SUBQUERY ++ " FROM mv_books_dc WHERE "
      ++ search_sql.getD "" ++ ") t WHERE " ++ filter_sql.getD "", params)
  else if truthy search_sql then
    ("SELECT COUNT(*) FROM mv_books_dc WHERE " ++ search_sql.getD "", params)
  else if truthy filter_sql then
    ("SELECT COUNT(*) FROM mv_books_dc WHERE " ++ filter_sql.getD "", params)
  else
    ("SELECT COUNT(*) FROM mv_books_dc", params)

/-- The dict `FullTextSearch.execute` returns (lines 462-468). -/
structure PageResult (Proj : Type) where
  results : List Proj
  page : Int
  page_size : Int
  total : Int
  total_pages : Int

/-- The engine of src/search/full_text_search.py, lines 423-449, reduced
to what `execute` consumes: the backing store as a deterministic function
of the statement text and parameters (`runScalar` is
`session.execute(...).scalar()`, `runFetch` is
`session.execute(...).fetchall()`), and `_transform` (lines 446-449,
crosswalk dispatch) as `transform`. -/
structure FullTextSearch (Row Proj : Type) where
  runScalar : String → Params → Option Int
  runFetch : String → Params → List Row
  transform : Crosswalk → Row → Proj

/-- `FullTextSearch.execute`, lines 451-468: run the count statement,
derive `total_pages`, clamp the query's page in place, build and run the
fetch statement, and assemble the result dict.  Python `or 0` on the
scalar is `Option.getD 0` (`0 or 0` is also `0`); `//` is floor
division, `Int.fdiv`. -/
def FullTextSearch.execute {Row Proj : Type} (fts : FullTextSearch Row Proj)
    (q : SearchQuery) : PageResult Proj × SearchQuery :=
  let cp := q.build_count
  let total := (fts.runScalar cp.1 cp.2).getD 0
  let total_pages := max 1 (Int.fdiv (total + q._page_size - 1) q._page_size)
  let q := { q with _page := max 1 (min q._page total_pages) }
  let bp := q.build
  let rows := fts.runFetch bp.1 bp.2
  ({ results := rows.map (fts.transform q._crosswalk),
     page := q._page,
     page_size := q._page_size,
     total := total,
     total_pages := total_pages }, q)

/-- The WHERE clause `joinAnd conds` under an interpretation `eval` of a
single condition's SQL text (with the statement's bound parameters) on a
row: the conjunction holds iff every conjunct does. -/
def wherePred {Row : Type} (conds : List String) (params : Params)
    (eval : String → Params → Row → Bool) (r : Row) : Bool :=
  conds.all (fun c => eval c params r)

/-- The set of rows the statements of `SearchQuery.build` /
`SearchQuery.build_count` select from a table, under an interpretation
`eval` of individual condition SQL on rows.  It follows the source's four
shapes (lines 349-357 / 365-374) literally: when both families are
truthy, the inner sub-select keeps the rows satisfying the search
conditions (`_SUBQUERY` projects every column a filter condition reads,
so the sub-select is row-preserving) and the outer WHERE keeps those
also satisfying the filter conditions; with one family, a single WHERE;
with neither, the whole table.  ORDER BY / LIMIT / OFFSET do not change
which rows satisfy the WHERE. -/
def compiledRowSet {Row : Type} (q : SearchQuery) (table : List Row)
    (eval : String → Params → Row → Bool) : List Row :=
  let params := q._params
  let search_sql : Option String :=
    if q._search ≠ [] then some (joinAnd (q._search.map (·.1))) else none
  let filter_sql : Option String :=
    if q._filter ≠ [] then some (joinAnd (q._filter.map (·.1))) else none
  if truthy search_sql ∧ truthy filter_sql then
    (table.filter (wherePred (q._search.map (·.1)) params eval)).filter
      (wherePred (q._filter.map (·.1)) params eval)
  else if truthy search_sql then
    table.filter (wherePred (q._search.map (·.1)) params eval)
  else if truthy filter_sql then
    table.filter (wherePred (q._filter.map (·.1)) params eval)
  else
    table

/-- `FullTextSearch.execute` with its two round-trips interpreted against
the relational semantics of the statements it builds: the count
statement returns the number of rows its WHERE selects
(`compiledRowSet`, shared with the fetch statement, which has the same
WHERE), and the fetch statement returns those rows ordered by the
backend (`ord`, abstract) with OFFSET `(page-1)*page_size` and LIMIT
`page_size` applied — the literals `build` embeds in the statement
text.  The control flow (count, total_pages, clamp, fetch) is that of
`execute`, lines 451-468. -/
def executeSem {Row : Type} (table : List Row)
    (eval : String → Params → Row → Bool) (ord : List Row → List Row)
    (q : SearchQuery) : PageResult Row × SearchQuery :=
  let total : Int := ((compiledRowSet q table eval).length : Int)
  let total_pages := max 1 (Int.fdiv (total + q._page_size - 1) q._page_size)
  let q := { q with _page := max 1 (min q._page total_pages) }
  let offset := (q._page - 1) * q._page_size
  let rows := ((ord (compiledRowSet q table eval)).drop offset.toNat).take q._page_size.toNat
  ({ results := rows,
     page := q._page,
     page_size := q._page_size,
     total := total,
     total_pages := total_pages }, q)

/-- The reference semantics the spec measures the four shapes against: a
single flat WHERE conjoining all `k + m` individual predicates, under
the statement's one merged parameter set. -/
def flatRowSet {Row : Type} (q : SearchQuery) (table : List Row)
    (eval : String → Params → Row → Bool) : List Row :=
  table.filter (wherePred (q._search.map (·.1) ++ q._filter.map (·.1)) q._params eval)

/-- One filter-directive call of the builder API: the constructor carries
the argument of the corresponding SearchQuery method. -/
inductive FilterDirective
  | etext (nr : Int)
  | etexts (nrs : List Int)
  | downloads_gte (n : Int)
  | downloads_lte (n : Int)
  | public_domain
  | copyrighted
  | lang (code : Language ⊕ String)
  | text_only
  | audiobook
  | author_born_after (year : Int)
  | author_born_before (year : Int)
  | author_died_after (year : Int)
  | author_died_before (year : Int)
  | released_after (date : String)
  | released_before (date : String)
  | locc (code : String)
  | has_contributor (role : String)
  | file_type (ft : FileType)
  | author_id (aid : Int)
  | subject_id (sid : Int)
  | bookshelf_id (bid : Int)
  | encoding (enc : Encoding)

/-- Dispatch of a filter directive to its SearchQuery method. -/
def applyFilter (q : SearchQuery) : FilterDirective → SearchQuery
  | .etext nr => q.etext nr
  | .etexts nrs => q.etexts nrs
  | .downloads_gte n => q.downloads_gte n
  | .downloads_lte n => q.downloads_lte n
  | .public_domain => q.public_domain
  | .copyrighted => q.copyrighted
  | .lang code => q.lang code
  | .text_only => q.text_only
  | .audiobook => q.audiobook
  | .author_born_after y => q.author_born_after y
  | .author_born_before y => q.author_born_before y
  | .author_died_after y => q.author_died_after y
  | .author_died_before y => q.author_died_before y
  | .released_after d => q.released_after d
  | .released_before d => q.released_before d
  | .locc code => q.locc code
  | .has_contributor role => q.has_contributor role
  | .file_type ft => q.file_type ft
  | .author_id aid => q.author_id aid
  | .subject_id sid => q.subject_id sid
  | .bookshelf_id bid => q.bookshelf_id bid
  | .encoding enc => q.encoding enc

/-- The single Condition a filter directive appends (read off each
method of the source; `applyFilter_filter` checks it against them). -/
def filterCond : FilterDirective → String × Params
  | .etext nr => ("book_id = :id", [("id", Value.int nr)])
  | .etexts nrs => ("book_id = ANY(:ids)", [("ids", Value.intList nrs)])
  | .downloads_gte n => ("downloads >= :dl", [("dl", Value.int n)])
  | .downloads_lte n => ("downloads <= :dl", [("dl", Value.int n)])
  | .public_domain => ("copyrighted = 0", [])
  | .copyrighted => ("copyrighted = 1", [])
  | .lang code => ("lang_codes @> ARRAY[CAST(:lang AS text)]",
      [("lang", Value.str (match code with | Sum.inl l => l.code | Sum.inr s => pyLower s))])
  | .text_only => ("is_audio = false", [])
  | .audiobook => ("is_audio = true", [])
  | .author_born_after y => ("max_author_birthyear >= :y", [("y", Value.int y)])
  | .author_born_before y => ("min_author_birthyear <= :y", [("y", Value.int y)])
  | .author_died_after y => ("max_author_deathyear >= :y", [("y", Value.int y)])
  | .author_died_before y => ("min_author_deathyear <= :y", [("y", Value.int y)])
  | .released_after d => ("release_date >= CAST(:d AS date)", [("d", Value.str d)])
  | .released_before d => ("release_date <= CAST(:d AS date)", [("d", Value.str d)])
  | .locc code =>
      ("EXISTS (SELECT 1 FROM mn_books_loccs mbl JOIN loccs lc ON lc.pk = mbl.fk_loccs WHERE mbl.fk_books = book_id AND lc.pk LIKE :locc_pattern)",
        [("locc_pattern", Value.str (code ++ "%"))])
  | .has_contributor role => ("dc->'creators' @> CAST(:j AS jsonb)",
      [("j", Value.str ("[\x7b\"role\":\"" ++ role ++ "\"\x7d]"))])
  | .file_type ft => ("dc->'format' @> CAST(:ft AS jsonb)",
      [("ft", Value.str ("[\x7b\"mediatype\":\"" ++ ft.value ++ "\"\x7d]"))])
  | .author_id aid => ("dc->'creators' @> CAST(:aid AS jsonb)",
      [("aid", Value.str ("[\x7b\"id\":" ++ toString aid ++ "\x7d]"))])
  | .subject_id sid =>
      ("EXISTS (SELECT 1 FROM mn_books_subjects mbs WHERE mbs.fk_books = book_id AND mbs.fk_subjects = :sid)",
        [("sid", Value.int sid)])
  | .bookshelf_id bid =>
      ("EXISTS (SELECT 1 FROM mn_books_bookshelves mbb WHERE mbb.fk_books = book_id AND mbb.fk_bookshelves = :bid)",
        [("bid", Value.int bid)])
  | .encoding enc => ("dc->'format' @> CAST(:enc AS jsonb)",
      [("enc", Value.str ("[\x7b\"encoding\":\"" ++ enc.value ++ "\"\x7d]"))])

/-- First-of over optional values (`a or b` on two lookups). -/
def orO (a b : Option Value) : Option Value :=
  match a with
  | some v => some v
  | none => b

/-- The value of the LAST pair of `l` whose name is `k`. -/
def lastVal (l : Params) (k : String) : Option Value :=
  (l.reverse.find? (fun kv => kv.1 == k)).map (·.2)

/-- Every `(name, value)` pair any Condition of the query binds, in the
order `_params` visits them: search conditions first, then filters. -/
def allBindings (q : SearchQuery) : Params :=
  (q._search.map (fun s => s.2.1)).flatten ++ (q._filter.map (·.2)).flatten

/-- `download_boost` of `FullTextSearch.ranked_fulltext_search`,
src/FullTextSearchRewrite.py line 210. -/
def download_boost : ℝ := 1.5

/-- The fused rank of one matched book, src/FullTextSearchRewrite.py
lines 267-279: the summed text subscore plus
`ln(1 + coalesce(downloads, 0)) * download_boost` (a NULL download count
is `none`). -/
noncomputable def total_rank (text_rank : ℝ) (downloads : Option ℕ) : ℝ :=
  text_rank + Real.log (1 + ((downloads.getD 0 : ℕ) : ℝ)) * download_boost

/-- The ORDER BY / LIMIT / OFFSET tail `build` appends to every shape. -/
def orderLimitTail (q : SearchQuery) : String :=
  " ORDER BY " ++ (q._order_sql q._params).1 ++ " LIMIT " ++ toString q._page_size
    ++ " OFFSET " ++ toString ((q._page - 1) * q._page_size)

/-- A store whose count statement always returns 0 rows (used to exhibit
the page write-back of `execute`). -/
def emptyStore : FullTextSearch Unit Unit :=
  { runScalar := fun _ _ => some 0
    runFetch := fun _ _ => []
    transform := fun _ r => r }

/-- A query with one FTS search directive and one filter directive. -/
def qBoth : SearchQuery :=
  (SearchQuery.new.search "dickens" SearchField.AUTHOR SearchType.FTS).downloads_gte 100

/-- A trivial condition interpretation on unit rows. -/
def unitEval : String → Params → Unit → Bool := fun _ _ _ => true

/-! ## Helper lemmas -/

theorem applyFilter_filter (q : SearchQuery) (d : FilterDirective) :
    (applyFilter q d)._filter = q._filter ++ [filterCond d] := by
  cases d <;> rfl

theorem dictGet_map_assign (m : Params) (kv : String × Value) (k : String) :
    dictGet (m.map (fun p => if p.1 == kv.1 then (p.1, kv.2) else p)) k =
      (dictGet m k).map (fun v => if k == kv.1 then kv.2 else v) := by
  unfold dictGet
  rw [List.find?_map]
  have hpred : ((fun p : String × Value => p.1 == k) ∘ fun p => if p.1 == kv.1 then (p.1, kv.2) else p)
      = fun p : String × Value => p.1 == k := by
    funext p
    by_cases h : p.1 == kv.1 <;> simp [Function.comp, h]
  rw [hpred]
  cases hfind : m.find? (fun p => p.1 == k) with
  | none => simp
  | some p =>
    have hpk : p.1 = k := by simpa using List.find?_some hfind
    by_cases hkv : p.1 == kv.1 <;> simp_all

theorem dictGet_isSome_of_any (m : Params) (k : String)
    (h : m.any (fun p => p.1 == k)) : (dictGet m k).isSome := by
  unfold dictGet
  rcases List.any_eq_true.mp h with ⟨p, hmem, hp⟩
  have hsome : (m.find? (fun q => q.1 == k)).isSome :=
    List.find?_isSome.mpr ⟨p, hmem, hp⟩
  cases hfind : m.find? (fun q => q.1 == k) with
  | none => rw [hfind] at hsome; simp at hsome
  | some v => simp

theorem dictGet_dictInsert (m : Params) (kv : String × Value) (k : String) :
    dictGet (dictInsert m kv) k = if k = kv.1 then some kv.2 else dictGet m k := by
  unfold dictInsert
  by_cases hany : (m.any (fun q => q.1 == kv.1)) = true
  · rw [if_pos hany, dictGet_map_assign]
    by_cases hk : k = kv.1
    · have hb : (k == kv.1) = true := by simpa using hk
      have hsome := dictGet_isSome_of_any m k (by rw [hk]; exact hany)
      cases hget : dictGet m k with
      | none => rw [hget] at hsome; simp at hsome
      | some v => simp [hget, hb, hk]
    · have hb : (k == kv.1) = false := by simpa using hk
      simp [hb, hk]
  · rw [if_neg hany]
    unfold dictGet
    rw [List.find?_append]
    by_cases hk : k = kv.1
    · have hnone : m.find? (fun q => q.1 == k) = none := by
        rw [List.find?_eq_none]
        intro q hmem hq
        refine (List.any_eq_true.not.mp hany) ⟨q, hmem, ?_⟩
        rw [← hk]; exact hq
      have hb : (kv.1 == k) = true := by simpa using hk.symm
      rw [hnone]
      simp [List.find?, hb, hk, Option.or]
    · have hb : (kv.1 == k) = false := by
        simp only [beq_eq_false_iff_ne, ne_eq]
        exact fun hc => hk hc.symm
      simp only [List.find?, hb, if_neg hk, cond_false]
      cases m.find? (fun q => q.1 == k) <;> simp [Option.or]

theorem lastVal_append (a b : Params) (k : String) :
    lastVal (a ++ b) k = orO (lastVal b k) (lastVal a k) := by
  unfold lastVal orO
  rw [List.reverse_append, List.find?_append]
  cases b.reverse.find? (fun kv => kv.1 == k) <;> simp [Option.or]

theorem lastVal_cons (kv : String × Value) (p : Params) (k : String) :
    lastVal (kv :: p) k = orO (lastVal p k) (if kv.1 == k then some kv.2 else none) := by
  have h : kv :: p = [kv] ++ p := rfl
  rw [h, lastVal_append]
  have hsingle : lastVal [kv] k = if kv.1 == k then some kv.2 else none := by
    unfold lastVal
    by_cases hk : kv.1 == k <;> simp [List.find?, hk]
  rw [hsingle]

theorem dictGet_dictUpdate (m p : Params) (k : String) :
    dictGet (dictUpdate m p) k = orO (lastVal p k) (dictGet m k) := by
  induction p generalizing m with
  | nil => simp [dictUpdate, lastVal, orO]
  | cons kv rest ih =>
    have hstep : dictUpdate m (kv :: rest) = dictUpdate (dictInsert m kv) rest := rfl
    rw [hstep, ih, dictGet_dictInsert, lastVal_cons]
    by_cases hk : k = kv.1
    · have hb : (kv.1 == k) = true := by simpa using hk.symm
      cases lastVal rest k <;> simp [orO, hk, hb]
    · have hb : (kv.1 == k) = false := by
        simp only [beq_eq_false_iff_ne, ne_eq]
        exact fun hc => hk hc.symm
      cases lastVal rest k <;> simp [orO, hk, hb]

theorem dictGet_foldl_update {α : Type} (f : α → Params) (L : List α) (m : Params) (k : String) :
    dictGet (L.foldl (fun acc x => dictUpdate acc (f x)) m) k =
      orO (lastVal ((L.map f).flatten) k) (dictGet m k) := by
  induction L generalizing m with
  | nil => simp [lastVal, orO]
  | cons x rest ih =>
    simp only [List.foldl_cons, List.map_cons, List.flatten_cons]
    rw [ih, dictGet_dictUpdate, lastVal_append]
    cases h1 : lastVal ((rest.map f).flatten) k <;>
      cases h2 : lastVal (f x) k <;> simp [orO]

theorem joinAnd_ne_empty {l : List String} (hne : l ≠ []) (h : ∀ s ∈ l, s ≠ "") :
    joinAnd l ≠ "" := by
  cases l with
  | nil => exact absurd rfl hne
  | cons s t =>
    cases t with
    | nil => simpa [joinAnd] using h s (by simp)
    | cons b rest =>
      intro hc
      have hlen := congrArg String.length hc
      rw [show joinAnd (s :: b :: rest) = s ++ " AND " ++ joinAnd (b :: rest) from rfl] at hlen
      rw [String.length_append, String.length_append] at hlen
      have h5 : (" AND " : String).length = 5 := rfl
      have h0 : ("" : String).length = 0 := rfl
      rw [h0] at hlen
      simp only [h5] at hlen
      omega

/-! ## Claim theorems -/

/-- C7: the pagination setters clamp their arguments: a `pageSize` request
of 0 compiles to 1, of -5 to 1, of 500 to 100 (`pageSize` is clamped into
[1, 100]); a `page` request of 0 or -3 compiles to 1 (`page` is clamped
into [1, ∞)). -/
theorem getitem_clamps :
    (∀ (q : SearchQuery) (k a b : Int),
      1 ≤ (q.__getitem__ (Sum.inl k))._page ∧
      1 ≤ (q.__getitem__ (Sum.inr (a, b)))._page ∧
      1 ≤ (q.__getitem__ (Sum.inr (a, b)))._page_size ∧
      (q.__getitem__ (Sum.inr (a, b)))._page_size ≤ 100) ∧
    (SearchQuery.new.__getitem__ (Sum.inr (1, 0)))._page_size = 1 ∧
    (SearchQuery.new.__getitem__ (Sum.inr (1, -5)))._page_size = 1 ∧
    (SearchQuery.new.__getitem__ (Sum.inr (1, 500)))._page_size = 100 ∧
    (SearchQuery.new.__getitem__ (Sum.inl 0))._page = 1 ∧
    (SearchQuery.new.__getitem__ (Sum.inl (-3)))._page = 1 := by
  refine ⟨fun q k a b => ?_, by decide, by decide, by decide, by decide, by decide⟩
  refine ⟨?_, ?_, ?_, ?_⟩ <;> simp [SearchQuery.__getitem__]

/-- C9: ATTRIBUTE is not a trigram field, so `search` with search_type
FUZZY or CONTAINS takes the same branch as FTS for it: for every
non-blank text all three modes append the identical
`websearch_to_tsquery` Condition. -/
theorem attribute_mode_collapses (q : SearchQuery) (txt : String) (st : SearchType)
    (h : pyStrip txt ≠ "") :
    q.search txt SearchField.ATTRIBUTE st = q.search txt SearchField.ATTRIBUTE SearchType.FTS ∧
    (q.search txt SearchField.ATTRIBUTE st)._search =
      q._search ++ [("attribute_tsvec @@ websearch_to_tsquery('english', :q)",
        [("q", Value.str (pyStrip txt))], "attribute_tsvec")] := by
  unfold SearchQuery.search
  simp [h, _TRIGRAM_FIELDS, _FIELD_COLS]

/-- Witness for C9 at a concrete input: FUZZY mode on ATTRIBUTE emits the
FTS condition for the text `dickens`. -/
theorem attribute_mode_collapses_witness :
    SearchQuery.new.search "dickens" SearchField.ATTRIBUTE SearchType.FUZZY =
      SearchQuery.new.search "dickens" SearchField.ATTRIBUTE SearchType.FTS ∧
    (SearchQuery.new.search "dickens" SearchField.ATTRIBUTE SearchType.FUZZY)._search =
      SearchQuery.new._search ++ [("attribute_tsvec @@ websearch_to_tsquery('english', :q)",
        [("q", Value.str (pyStrip "dickens"))], "attribute_tsvec")] :=
  attribute_mode_collapses SearchQuery.new "dickens" SearchType.FUZZY (by decide)

/-- C8: the fused rank is the text subscore plus
`log(1 + downloads) * download_boost`, and it is monotone in popularity:
with the text subscore fixed, more downloads never decrease it. -/
theorem fused_rank_monotone (t : ℝ) (d1 d2 : ℕ) (h : d1 ≤ d2) :
    total_rank t (some d1) ≤ total_rank t (some d2) := by
  unfold total_rank download_boost
  simp only [Option.getD_some]
  have h1 : (0 : ℝ) < 1 + (d1 : ℕ) := by positivity
  have hle : (1 : ℝ) + (d1 : ℕ) ≤ 1 + (d2 : ℕ) := by
    have : ((d1 : ℕ) : ℝ) ≤ ((d2 : ℕ) : ℝ) := Nat.cast_le.mpr h
    linarith
  have hlog := Real.log_le_log h1 hle
  nlinarith [hlog]

/-- Witness for C8 at concrete download counts 1 ≤ 2. -/
theorem fused_rank_monotone_witness :
    total_rank 0 (some 1) ≤ total_rank 0 (some 2) :=
  fused_rank_monotone 0 1 2 (by decide)

/-- C5 (amended): `build` performs no priority reordering: the filter
Conditions of a Query are exactly the appended Conditions of its filter
directives, in the order the directives were applied, whatever their
kinds. -/
theorem filters_compile_in_insertion_order (q : SearchQuery) (ds : List FilterDirective) :
    (ds.foldl applyFilter q)._filter = q._filter ++ ds.map filterCond := by
  induction ds generalizing q with
  | nil => simp
  | cons d rest ih =>
    simp only [List.foldl_cons, List.map_cons]
    rw [ih, applyFilter_filter, List.append_assoc]
    rfl

/-- Counterexample to C5 as stated: adding the containment filter
(`locc`, the most expensive class) before the identity filter (`etext`,
primary-key lookup) leaves the containment Condition first in the
compiled conjunction, and swapping the insertion order changes the
compiled statement — compilation is not independent of insertion order,
and no identity-first reordering happens. -/
theorem filters_not_priority_sorted :
    ((SearchQuery.new.locc "PS").etext 5)._filter.map Prod.fst =
      ["EXISTS (SELECT 1 FROM mn_books_loccs mbl JOIN loccs lc ON lc.pk = mbl.fk_loccs WHERE mbl.fk_books = book_id AND lc.pk LIKE :locc_pattern)",
       "book_id = :id"] ∧
    ((SearchQuery.new.locc "PS").etext 5).build ≠ ((SearchQuery.new.etext 5).locc "PS").build :=
  ⟨by decide, by decide⟩

/-- C2 (amended): parameter names are fixed per directive kind, not
generated from a counter, so distinct Conditions can bind the same name;
`_params` merges with `dict.update` semantics, keeping for every name
the value bound by the LAST Condition that binds it (search conditions
first, then filters, each family in insertion order). -/
theorem params_keep_last_binding (q : SearchQuery) (k : String) :
    dictGet q._params k = lastVal (allBindings q) k := by
  unfold SearchQuery._params allBindings
  rw [dictGet_foldl_update (fun f => f.2) q._filter _ k,
    dictGet_foldl_update (fun s => s.2.1) q._search [] k,
    lastVal_append]
  have hnil : dictGet [] k = none := rfl
  rw [hnil]
  cases lastVal ((q._filter.map (fun f => f.2)).flatten) k <;>
    cases lastVal ((q._search.map (fun s => s.2.1)).flatten) k <;> simp [orO]

/-- Counterexample to C2 as stated: `downloads_gte(100)` and
`downloads_lte(500)` both bind the name `dl` with different values; the
compiled parameter map holds only the later binding `dl = 500`, the
earlier pair `(dl, 100)` has been overwritten. -/
theorem param_collision_counterexample :
    ((SearchQuery.new.downloads_gte 100).downloads_lte 500)._filter =
      [("downloads >= :dl", [("dl", Value.int 100)]),
       ("downloads <= :dl", [("dl", Value.int 500)])] ∧
    ((SearchQuery.new.downloads_gte 100).downloads_lte 500)._params =
      [("dl", Value.int 500)] ∧
    ("dl", Value.int 100) ∉ ((SearchQuery.new.downloads_gte 100).downloads_lte 500)._params :=
  ⟨by decide, by decide, by decide⟩

/-- C1: the compiled statement takes one of four shapes depending on
whether search conditions (k) and filter conditions (m) are present — a
nested sub-select when both families are, a single WHERE when one is,
none when neither — and each shape selects exactly the rows satisfying
the flat AND-conjunction of all k + m individual predicates under the
statement's one merged parameter set. -/
theorem four_shapes_equiv_flat {Row : Type} (q : SearchQuery) (table : List Row)
    (eval : String → Params → Row → Bool)
    (hs : ∀ s ∈ q._search, s.1 ≠ "")
    (hf : ∀ f ∈ q._filter, f.1 ≠ "") :
    ((q._search ≠ [] ∧ q._filter ≠ [] ∧
        (q.build).1 = "SELECT " ++ _SELECT ++ " FROM (SELECT " ++ _SUBQUERY
          ++ " FROM mv_books_dc WHERE " ++ joinAnd (q._search.map (·.1))
          ++ ") t WHERE " ++ joinAnd (q._filter.map (·.1)) ++ orderLimitTail q) ∨
      (q._search ≠ [] ∧ q._filter = [] ∧
        (q.build).1 = "SELECT " ++ _SELECT ++ " FROM mv_books_dc WHERE "
          ++ joinAnd (q._search.map (·.1)) ++ orderLimitTail q) ∨
      (q._search = [] ∧ q._filter ≠ [] ∧
        (q.build).1 = "SELECT " ++ _SELECT ++ " FROM mv_books_dc WHERE "
          ++ joinAnd (q._filter.map (·.1)) ++ orderLimitTail q) ∨
      (q._search = [] ∧ q._filter = [] ∧
        (q.build).1 = "SELECT " ++ _SELECT ++ " FROM mv_books_dc" ++ orderLimitTail q)) ∧
    compiledRowSet q table eval = flatRowSet q table eval := by
  have hjs : q._search ≠ [] → joinAnd (q._search.map (·.1)) ≠ "" := by
    intro hne
    refine joinAnd_ne_empty (by simpa using hne) ?_
    intro s hmem
    rcases List.mem_map.mp hmem with ⟨x, hx, rfl⟩
    exact hs x hx
  have hjf : q._filter ≠ [] → joinAnd (q._filter.map (·.1)) ≠ "" := by
    intro hne
    refine joinAnd_ne_empty (by simpa using hne) ?_
    intro s hmem
    rcases List.mem_map.mp hmem with ⟨x, hx, rfl⟩
    exact hf x hx
  by_cases hS : q._search = [] <;> by_cases hF : q._filter = []
  · refine ⟨Or.inr (Or.inr (Or.inr ⟨hS, hF, ?_⟩)), ?_⟩
    · simp [SearchQuery.build, hS, hF, truthy, orderLimitTail]
    · have hw : wherePred ([] : List String) q._params eval = fun _ => true := by
        funext r; rfl
      simp [compiledRowSet, flatRowSet, hS, hF, truthy, hw]
  · refine ⟨Or.inr (Or.inr (Or.inl ⟨hS, hF, ?_⟩)), ?_⟩
    · simp [SearchQuery.build, hS, hF, truthy, hjf hF, orderLimitTail]
    · simp [compiledRowSet, flatRowSet, hS, hF, truthy, hjf hF, wherePred]
  · refine ⟨Or.inr (Or.inl ⟨hS, hF, ?_⟩), ?_⟩
    · simp [SearchQuery.build, hS, hF, truthy, hjs hS, orderLimitTail]
    · simp [compiledRowSet, flatRowSet, hS, hF, truthy, hjs hS, wherePred]
  · refine ⟨Or.inl ⟨hS, hF, ?_⟩, ?_⟩
    · simp [SearchQuery.build, hS, hF, truthy, hjs hS, hjf hF, orderLimitTail]
    · simp [compiledRowSet, flatRowSet, hS, hF, truthy, hjs hS, hjf hF, wherePred]
      refine List.filter_congr ?_
      intro r _
      unfold wherePred
      rw [List.all_append, Bool.and_comm]

/-- Witness for C1 at a concrete query (one FTS search directive plus one
downloads filter) over a one-row table. -/
theorem four_shapes_equiv_flat_witness :
    ((qBoth._search ≠ [] ∧ qBoth._filter ≠ [] ∧
        (qBoth.build).1 = "SELECT " ++ _SELECT ++ " FROM (SELECT " ++ _SUBQUERY
          ++ " FROM mv_books_dc WHERE " ++ joinAnd (qBoth._search.map (·.1))
          ++ ") t WHERE " ++ joinAnd (qBoth._filter.map (·.1)) ++ orderLimitTail qBoth) ∨
      (qBoth._search ≠ [] ∧ qBoth._filter = [] ∧
        (qBoth.build).1 = "SELECT " ++ _SELECT ++ " FROM mv_books_dc WHERE "
          ++ joinAnd (qBoth._search.map (·.1)) ++ orderLimitTail qBoth) ∨
      (qBoth._search = [] ∧ qBoth._filter ≠ [] ∧
        (qBoth.build).1 = "SELECT " ++ _SELECT ++ " FROM mv_books_dc WHERE "
          ++ joinAnd (qBoth._filter.map (·.1)) ++ orderLimitTail qBoth) ∨
      (qBoth._search = [] ∧ qBoth._filter = [] ∧
        (qBoth.build).1 = "SELECT " ++ _SELECT ++ " FROM mv_books_dc" ++ orderLimitTail qBoth)) ∧
    compiledRowSet qBoth [()] unitEval = flatRowSet qBoth [()] unitEval :=
  four_shapes_equiv_flat qBoth [()] unitEval (by decide) (by decide)

theorem build_params_eq (q : SearchQuery) :
    (q.build).2 = (q._order_sql q._params).2 := by
  simp only [SearchQuery.build]
  repeat' split
  all_goals rfl

theorem build_count_params_eq (q : SearchQuery) :
    (q.build_count).2 = q._params := by
  simp only [SearchQuery.build_count]
  repeat' split
  all_goals rfl

theorem order_sql_params (q : SearchQuery) (params : Params) :
    (q._order_sql params).2 = params ∨
      ∃ v, (q._order_sql params).2 = dictInsert params ("rank_q", Value.str v) := by
  unfold SearchQuery._order_sql
  repeat' split
  all_goals first
    | exact Or.inl rfl
    | exact Or.inr ⟨_, rfl⟩

/-- C4 (amended): the parameter maps of the fetch statement (`build`) and
the count statement (`build_count`) agree at every parameter name except
possibly `rank_q`, which `build` alone may bind for the relevance ORDER
BY expression; in particular every name a WHERE condition reads has the
same value in both statements. -/
theorem count_and_fetch_params_agree (q : SearchQuery) (k : String)
    (h : k ≠ "rank_q") :
    dictGet ((q.build).2) k = dictGet ((q.build_count).2) k := by
  rw [build_params_eq, build_count_params_eq]
  rcases order_sql_params q q._params with heq | ⟨v, heq⟩
  · rw [heq]
  · rw [heq, dictGet_dictInsert]
    simp [h]

/-- Witness for C4 at a concrete query and the parameter name `q`. -/
theorem count_and_fetch_params_agree_witness :
    dictGet (((SearchQuery.new.search "dickens" SearchField.AUTHOR SearchType.FTS).build).2) "q" =
      dictGet (((SearchQuery.new.search "dickens" SearchField.AUTHOR SearchType.FTS).build_count).2) "q" :=
  count_and_fetch_params_agree (SearchQuery.new.search "dickens" SearchField.AUTHOR SearchType.FTS)
    "q" (by decide)

/-- Counterexample to C4 as stated: with one search directive and the
default relevance order, `build` binds the extra `rank_q` parameter that
`build_count` does not, so the two parameter maps are not equal. -/
theorem count_and_fetch_params_differ :
    (((SearchQuery.new.search "dickens" SearchField.AUTHOR SearchType.FTS).build).2 =
      [("q", Value.str "dickens"), ("rank_q", Value.str "dickens")]) ∧
    (((SearchQuery.new.search "dickens" SearchField.AUTHOR SearchType.FTS).build_count).2 =
      [("q", Value.str "dickens")]) ∧
    ((SearchQuery.new.search "dickens" SearchField.AUTHOR SearchType.FTS).build).2 ≠
      ((SearchQuery.new.search "dickens" SearchField.AUTHOR SearchType.FTS).build_count).2 :=
  ⟨by decide, by decide, by decide⟩

theorem build_count_ignores_page (q : SearchQuery) (x : Int) :
    (SearchQuery.build_count { q with _page := x }) = q.build_count := rfl

theorem clamp_idem (p T : Int) (hT : 1 ≤ T) :
    max 1 (min (max 1 (min p T)) T) = max 1 (min p T) := by omega

theorem execute_stable {Row Proj : Type} (fts : FullTextSearch Row Proj) (q : SearchQuery) :
    fts.execute (fts.execute q).2 = fts.execute q := by
  unfold FullTextSearch.execute
  simp only [build_count_ignores_page]
  generalize ((fts.runScalar (q.build_count).1 (q.build_count).2).getD 0) = t
  generalize hT : max 1 (Int.fdiv (t + q._page_size - 1) q._page_size) = T
  have h1T : 1 ≤ T := hT ▸ le_max_left 1 _
  rw [clamp_idem q._page T h1T]

/-- C6: executing the same unmodified Query twice against the same
deterministic store produces identical compiled count statements,
identical compiled fetch statements (text and parameters) and identical
PageResults; the store is modelled as a function of the statement text
and parameters, so backend-side nondeterminism (ORDER BY RANDOM()) is
outside the model. -/
theorem execute_deterministic {Row Proj : Type} (fts : FullTextSearch Row Proj)
    (q : SearchQuery) :
    ((fts.execute q).2.build_count = q.build_count) ∧
    ((fts.execute (fts.execute q).2).2.build = (fts.execute q).2.build) ∧
    ((fts.execute (fts.execute q).2).1 = (fts.execute q).1) ∧
    ((fts.execute (fts.execute q).2).2 = (fts.execute q).2) := by
  have hs := execute_stable fts q
  exact ⟨build_count_ignores_page q _, by rw [hs], by rw [hs], by rw [hs]⟩

/-- C10: `execute` writes the clamped page back into the caller's Query
(the page may be strictly smaller afterwards, as the concrete empty-store
run shows), while the search directives, filter directives, sort order,
sort direction, page size and projection mode are left unchanged. -/
theorem execute_frame {Row Proj : Type} :
    (∀ (fts : FullTextSearch Row Proj) (q : SearchQuery),
      (fts.execute q).2._search = q._search ∧
      (fts.execute q).2._filter = q._filter ∧
      (fts.execute q).2._order = q._order ∧
      (fts.execute q).2._sort_dir = q._sort_dir ∧
      (fts.execute q).2._page_size = q._page_size ∧
      (fts.execute q).2._crosswalk = q._crosswalk ∧
      (fts.execute q).2._page = max 1 (min q._page (fts.execute q).1.total_pages)) ∧
    ((emptyStore.execute (SearchQuery.new.__getitem__ (Sum.inl 5))).2._page <
      (SearchQuery.new.__getitem__ (Sum.inl 5))._page) :=
  ⟨fun fts q => ⟨rfl, rfl, rfl, rfl, rfl, rfl, rfl⟩, by decide⟩

theorem fdiv_ceil_eq (t p : Int) (ht : 0 ≤ t) (hp : 0 < p) :
    Int.fdiv (t + p - 1) p = ⌈(t : ℚ) / (p : ℚ)⌉ := by
  rw [Int.fdiv_eq_ediv _ (le_of_lt hp)]
  symm
  rw [Int.ceil_eq_iff]
  have hmod := Int.ediv_add_emod (t + p - 1) p
  have h0 := Int.emod_nonneg (t + p - 1) (by omega : p ≠ 0)
  have h1 := Int.emod_lt_of_pos (t + p - 1) hp
  set d := (t + p - 1) / p with hd
  set r := (t + p - 1) % p with hr
  have h2 : t ≤ p * d := by linarith
  have h3 : p * d - p < t := by linarith
  have hp' : (0 : ℚ) < (p : ℚ) := by exact_mod_cast hp
  constructor
  · rw [lt_div_iff₀ hp']
    have h3q : ((p * d - p : ℤ) : ℚ) < ((t : ℤ) : ℚ) := by exact_mod_cast h3
    push_cast at h3q
    nlinarith [h3q]
  · rw [div_le_iff₀ hp']
    have h2q : ((t : ℤ) : ℚ) ≤ ((p * d : ℤ) : ℚ) := by exact_mod_cast h2
    push_cast at h2q
    nlinarith [h2q]

/-- C3: `execute` computes `totalPages = max(1, ceil(total / pageSize))`,
clamps the requested page into [1, totalPages] before the fetch, fetches
with offset `(clampedPage - 1) * pageSize`, and with `total = 0` returns
page 1, totalPages 1 and no rows — no division by zero.  Stated over
`executeSem`, `execute` with its two round-trips interpreted against the
relational semantics of the statements it builds (the backend ordering
`ord` is any length-preserving rearrangement). -/
theorem execute_pagination {Row : Type} (table : List Row)
    (eval : String → Params → Row → Bool) (ord : List Row → List Row)
    (q : SearchQuery) (hps : 1 ≤ q._page_size)
    (hord : ∀ l, (ord l).length = l.length) :
    (executeSem table eval ord q).1.total_pages =
      max 1 ⌈((executeSem table eval ord q).1.total : ℚ) / (q._page_size : ℚ)⌉ ∧
    (executeSem table eval ord q).1.page =
      max 1 (min q._page (executeSem table eval ord q).1.total_pages) ∧
    1 ≤ (executeSem table eval ord q).1.page ∧
    (executeSem table eval ord q).1.page ≤ (executeSem table eval ord q).1.total_pages ∧
    (executeSem table eval ord q).1.results =
      ((ord (compiledRowSet q table eval)).drop
        ((((executeSem table eval ord q).1.page - 1) * q._page_size).toNat)).take
        q._page_size.toNat ∧
    ((executeSem table eval ord q).1.total = 0 →
      (executeSem table eval ord q).1.page = 1 ∧
      (executeSem table eval ord q).1.total_pages = 1 ∧
      (executeSem table eval ord q).1.results = []) := by
  have htot : (executeSem table eval ord q).1.total =
      ((compiledRowSet q table eval).length : Int) := rfl
  have htp : (executeSem table eval ord q).1.total_pages =
      max 1 (Int.fdiv ((executeSem table eval ord q).1.total + q._page_size - 1)
        q._page_size) := rfl
  have hpage : (executeSem table eval ord q).1.page =
      max 1 (min q._page (executeSem table eval ord q).1.total_pages) := rfl
  have htotnn : 0 ≤ (executeSem table eval ord q).1.total := by rw [htot]; omega
  have hceil : (executeSem table eval ord q).1.total_pages =
      max 1 ⌈((executeSem table eval ord q).1.total : ℚ) / (q._page_size : ℚ)⌉ := by
    rw [htp, fdiv_ceil_eq _ _ htotnn (by omega)]
  have h1T : 1 ≤ (executeSem table eval ord q).1.total_pages := htp ▸ le_max_left 1 _
  refine ⟨hceil, hpage, ?_, ?_, rfl, ?_⟩
  · rw [hpage]; exact le_max_left 1 _
  · rw [hpage]; exact max_le h1T (min_le_right _ _)
  · intro h0
    have hlen : (compiledRowSet q table eval).length = 0 := by
      rw [htot] at h0; omega
    have hnil : compiledRowSet q table eval = [] := List.length_eq_zero.mp hlen
    have htp1 : (executeSem table eval ord q).1.total_pages = 1 := by
      rw [htp, h0]
      have : Int.fdiv (0 + q._page_size - 1) q._page_size = 0 := by
        rw [Int.fdiv_eq_ediv _ (by omega)]
        exact Int.ediv_eq_zero_of_lt (by omega) (by omega)
      rw [this]
      omega
    have hpage1 : (executeSem table eval ord q).1.page = 1 := by
      rw [hpage, htp1]
      exact max_eq_left (min_le_right _ _)
    refine ⟨hpage1, htp1, ?_⟩
    have hordnil : ord (compiledRowSet q table eval) = [] := by
      have := hord (compiledRowSet q table eval)
      rw [hnil] at this ⊢
      exact List.length_eq_zero.mp (by simpa using this)
    have hres : (executeSem table eval ord q).1.results =
        ((ord (compiledRowSet q table eval)).drop
          ((((executeSem table eval ord q).1.page - 1) * q._page_size).toNat)).take
          q._page_size.toNat := rfl
    rw [hres, hordnil]
    simp

/-- Witness for C3: the empty table, the trivial interpretation, the
identity ordering and the default query. -/
theorem execute_pagination_witness :
    (executeSem ([] : List Unit) unitEval id SearchQuery.new).1.total_pages =
      max 1 ⌈((executeSem ([] : List Unit) unitEval id SearchQuery.new).1.total : ℚ) /
        (SearchQuery.new._page_size : ℚ)⌉ ∧
    (executeSem ([] : List Unit) unitEval id SearchQuery.new).1.page =
      max 1 (min SearchQuery.new._page
        (executeSem ([] : List Unit) unitEval id SearchQuery.new).1.total_pages) ∧
    1 ≤ (executeSem ([] : List Unit) unitEval id SearchQuery.new).1.page ∧
    (executeSem ([] : List Unit) unitEval id SearchQuery.new).1.page ≤
      (executeSem ([] : List Unit) unitEval id SearchQuery.new).1.total_pages ∧
    (executeSem ([] : List Unit) unitEval id SearchQuery.new).1.results =
      ((id (compiledRowSet SearchQuery.new ([] : List Unit) unitEval)).drop
        ((((executeSem ([] : List Unit) unitEval id SearchQuery.new).1.page - 1) *
          SearchQuery.new._page_size).toNat)).take SearchQuery.new._page_size.toNat ∧
    ((executeSem ([] : List Unit) unitEval id SearchQuery.new).1.total = 0 →
      (executeSem ([] : List Unit) unitEval id SearchQuery.new).1.page = 1 ∧
      (executeSem ([] : List Unit) unitEval id SearchQuery.new).1.total_pages = 1 ∧
      (executeSem ([] : List Unit) unitEval id SearchQuery.new).1.results = []) :=
  execute_pagination ([] : List Unit) unitEval id SearchQuery.new (by decide) (fun l => rfl)

end GutenFTS
